import Mathlib

/-!
Shallow embedding of the signal-to-order execution engine of
py-crypto-tradebot: `LiveTrader._execute_signal`, the trailing-stop state
machine (`_setup_trailing_stop`, `_update_trailing_stop`,
`_check_trailing_stop_trigger`), the tick handler `_handle_crypto_trade`
(all in src/live/trader.py), and the entry-offset overlay
(`LoggingStrategyWrapper._calculate_offset_price`, `.buy`, `.sell` in
src/backtest/backtester.py).

Python floats used for prices are modelled as rationals (`ℚ`); the
`math.inf` / `-math.inf` sentinels stored in unused extreme-price fields
are modelled by the extended type `ExtQ`.  Python `None` is modelled by
`Option`.  Broker calls are modelled as an explicit output list; the
broker's position answer is an input of the embedded functions.

The embedding includes three runtime defects of the source, which the
control flow hits on every affected path:
* `AlpacaData` (src/data/alpaca.py) defines no `close_position`, so the
  trigger path's `self.alpaca.close_position(...)` (src/live/trader.py
  line 231, and line 165 of the stock handler) raises `AttributeError`
  before any broker call and is caught by the handler's outer `except`;
* `AlpacaData.place_market_order` returns a plain dict
  (`market_order.dict()` or `{'error': ...}`, always truthy, never
  `None`), so `order_details.id` at trader.py line 350 raises
  `AttributeError` — line 351 (`self.last_order_time = current_time`) is
  dead and the rate limiter never engages;
* `order_details.status` at lines 318/340 raises the same way, so
  `_setup_trailing_stop` is never reached from `_execute_signal`.
-/

/-- Extended rationals: a rational, or the IEEE infinities that
src/live/trader.py stores via `math.inf` / `-math.inf` in the unused
extreme-price field of a trailing-stop state. -/
inductive ExtQ where
  | ninf : ExtQ
  | fin : ℚ → ExtQ
  | inf : ExtQ
deriving DecidableEq, Repr

/-- Python `<=` on extended floats (NaN never arises in the modelled flows). -/
def ExtQ.ble : ExtQ → ExtQ → Bool
  | .ninf, _ => true
  | _, .inf => true
  | .inf, _ => false
  | _, .ninf => false
  | .fin a, .fin b => decide (a ≤ b)

/-- Python `max` on extended floats (returns the first argument on ties). -/
def ExtQ.pmax (a b : ExtQ) : ExtQ := if ExtQ.ble b a then a else b

/-- Python `min` on extended floats (returns the first argument on ties). -/
def ExtQ.pmin (a b : ExtQ) : ExtQ := if ExtQ.ble a b then a else b

/-- Multiplication of an extended float by a rational.  (Python's
`inf * 0.0` is NaN; that corner is unreachable in the modelled code, which
only ever multiplies a finite extreme price by `1 ± trail_pct`.) -/
def ExtQ.mulQ : ExtQ → ℚ → ExtQ
  | .fin q, c => .fin (q * c)
  | .inf, c => if 0 < c then .inf else if c < 0 then .ninf else .fin 0
  | .ninf, c => if 0 < c then .ninf else if c < 0 then .inf else .fin 0

/-- `alpaca.trading.enums.OrderSide`. -/
inductive OrderSide where
  | buy
  | sell
deriving DecidableEq, Repr

/-- `alpaca.trading.enums.PositionSide` for an open position; the flat case
is the Python `None` that `_execute_signal` keeps when the position query
returns 404, so a broker-reported side is an `Option PositionSide`. -/
inductive PositionSide where
  | long
  | short
deriving DecidableEq, Repr

/-- One entry of `self.active_trailing_stops` (built by
`_setup_trailing_stop`, src/live/trader.py lines 379-390). -/
structure TrailingStopState where
  side : OrderSide
  entry_price : ℚ
  activation_pct : ℚ
  trail_pct : ℚ
  atr_multiplier : ℚ
  current_atr : Option ℚ
  is_active : Bool
  highest_price : ExtQ
  lowest_price : ExtQ
  stop_price : Option ExtQ
deriving DecidableEq, Repr

/-- The `stop_loss_params` dict payload: the keys `_setup_trailing_stop`
reads with `.get`; a missing key is `none`. -/
structure TrailingParams where
  activation_pct : Option ℚ
  trail_pct : Option ℚ
  atr_multiplier : Option ℚ
  current_atr : Option ℚ
deriving DecidableEq, Repr

/-- A `stop_loss_params` argument whose `'type'` key is `'trailing'`, or any
other dict (treated as a standard order by `_execute_signal`). -/
inductive SLParams where
  | trailing (p : TrailingParams)
  | nonTrailing
deriving DecidableEq, Repr

/-- `_setup_trailing_stop` (src/live/trader.py lines 363-390) restricted to
the traded symbol: fetches the confirmed entry price (an input here; `none`
models the fetch raising, in which case the method returns and the map is
unchanged) and builds the fresh state dict.  Note: its only call sites,
`_execute_signal` lines 319/341, are unreachable — lines 318/340 raise
`AttributeError` first (see `openPosition`) — so in the running program
this method is never invoked. -/
def setupTrailingStop (prev : Option TrailingStopState) (side : OrderSide)
    (p : TrailingParams) (entryFetch : Option ℚ) : Option TrailingStopState :=
  match entryFetch with
  | none => prev
  | some entry_price =>
      some { side := side
             entry_price := entry_price
             activation_pct := p.activation_pct.getD (1/100)
             trail_pct := p.trail_pct.getD (15/1000)
             atr_multiplier := p.atr_multiplier.getD (3/2)
             current_atr := p.current_atr
             is_active := false
             highest_price := if side = OrderSide.buy then .fin entry_price else .ninf
             lowest_price := if side = OrderSide.sell then .fin entry_price else .inf
             stop_price := none }

/-- `_update_trailing_stop` (src/live/trader.py lines 392-428) restricted to
the traded symbol: activation check, then extreme/stop update while active. -/
def updateTrailingStop (ts : Option TrailingStopState) (current_price : ℚ) :
    Option TrailingStopState :=
  match ts with
  | none => ts
  | some state =>
      let state :=
        if state.is_active = false then
          if state.side = OrderSide.buy ∧
              current_price ≥ state.entry_price * (1 + state.activation_pct) then
            { state with is_active := true, highest_price := .fin current_price }
          else if state.side = OrderSide.sell ∧
              current_price ≤ state.entry_price * (1 - state.activation_pct) then
            { state with is_active := true, lowest_price := .fin current_price }
          else state
        else state
      let state :=
        if state.is_active = true then
          if state.side = OrderSide.buy then
            let hi := ExtQ.pmax state.highest_price (.fin current_price)
            { state with highest_price := hi,
                         stop_price := some (hi.mulQ (1 - state.trail_pct)) }
          else if state.side = OrderSide.sell then
            let lo := ExtQ.pmin state.lowest_price (.fin current_price)
            { state with lowest_price := lo,
                         stop_price := some (lo.mulQ (1 + state.trail_pct)) }
          else state
        else state
      some state

/-- `_check_trailing_stop_trigger` (src/live/trader.py lines 430-447)
restricted to the traded symbol. -/
def checkTrailingStopTrigger (ts : Option TrailingStopState) (current_price : ℚ) :
    Bool :=
  match ts with
  | none => false
  | some state =>
      if state.is_active = false ∨ state.stop_price = none then false
      else
        match state.stop_price with
        | none => false
        | some sp =>
            if state.side = OrderSide.buy ∧ (ExtQ.fin current_price).ble sp then true
            else if state.side = OrderSide.sell ∧ sp.ble (.fin current_price) then true
            else false

/-- A broker order call issued by the engine via
`alpaca.place_market_order`.  (The trigger path's intended
`alpaca.close_position` call is never issued: `AlpacaData` defines no such
method, so the attribute lookup itself raises.) -/
inductive BrokerCall where
  | marketOrder (symbol : String) (qty : ℚ) (side : OrderSide)
deriving DecidableEq, Repr

/-- The answer of `trading_client.get_open_position` inside
`_execute_signal`: an open position, a 404 ("no existing position"), or any
other query failure (which aborts processing of the current signal). -/
inductive BrokerPosResult where
  | pos (side : PositionSide) (qty : ℚ)
  | notFound
  | queryError
deriving DecidableEq, Repr

/-- The mutable fields of `LiveTrader` that `_execute_signal` and the tick
handlers read and write, for the single traded symbol (the
`active_trailing_stops` dict is keyed by symbol and these methods only ever
touch `self.symbol`, so the per-symbol entry is an `Option`). -/
structure TraderState where
  lastOrderTime : Option ℚ
  currentPositionSide : Option PositionSide
  trailingStop : Option TrailingStopState
deriving DecidableEq, Repr

/-- The immutable per-trader configuration used by `_execute_signal`. -/
structure TraderConfig where
  symbol : String
  tradeQuantity : ℚ
deriving DecidableEq, Repr

/-- Result of one `_execute_signal` call: the broker calls it issued, in
order, the updated trader state, and whether the method's own `except` at
line 355 caught (and logged) an exception.  `_execute_signal` always
returns normally to its caller. -/
structure ExecResult where
  calls : List BrokerCall
  state : TraderState
  errorLogged : Bool
deriving DecidableEq, Repr

/-- The rate-limit guard at src/live/trader.py lines 285-287:
`self.last_order_time and (current_time - self.last_order_time).total_seconds() < 5`. -/
def rateLimited (lastOrderTime : Option ℚ) (currentTime : ℚ) : Bool :=
  match lastOrderTime with
  | none => false
  | some t => decide (currentTime - t < 5)

/-- The open-a-new-position branches of `_execute_signal` (lines 311-323 for
BUY, 334-345 for SELL): place a market order of `trade_quantity`.
`AlpacaData.place_market_order` (src/data/alpaca.py lines 201-226) never
raises and always returns a plain truthy dict (`market_order.dict()` or
`{'error': ...}`), so:
* on the trailing branch, line 318/340's `order_details.status` attribute
  access on that dict raises `AttributeError` at once — `_setup_trailing_stop`
  never runs and `order_placed` is never set; the exception is caught and
  logged by the method's own `except` at line 355;
* on the standard branch, the later post-placement block (line 350's
  `order_details.id`) raises likewise, so lines 351-353 never run.
In both branches the order has already been submitted and the state is
otherwise unchanged. -/
def openPosition (cfg : TraderConfig) (st : TraderState) (side : OrderSide)
    (slp : Option SLParams) : ExecResult :=
  match slp with
  | some (SLParams.trailing _) =>
      { calls := [BrokerCall.marketOrder cfg.symbol cfg.tradeQuantity side]
        state := st
        errorLogged := true }
  | _ =>
      { calls := [BrokerCall.marketOrder cfg.symbol cfg.tradeQuantity side]
        state := st
        errorLogged := true }

/-- The decision-table body of `_execute_signal` (lines 306-354), entered
after the position query succeeded: `apiSide` is the broker-reported side
(`none` = flat/404) and `positionQty` is `abs(float(existing_pos.qty))`.
On every order-placing branch the post-placement block at line 350 accesses
`order_details.id` on the dict returned by `place_market_order`, which
raises `AttributeError` (caught and logged at line 355), so
`self.last_order_time = current_time` at line 351 is dead code.  The
Sell-closes-Long deletion of the trailing-stop entry (lines 331-333) runs
BEFORE that block and therefore does happen; the Buy-closes-Short branch
has no such deletion.  The no-op branches reach line 349 with
`order_placed = False` and return without an exception. -/
def executeSignalBody (cfg : TraderConfig) (st : TraderState)
    (targetSide : OrderSide) (apiSide : Option PositionSide) (positionQty : ℚ)
    (slp : Option SLParams) : ExecResult :=
  match targetSide, apiSide with
  | OrderSide.buy, some PositionSide.short =>
      -- "Signal BUY: Closing SHORT": the trailing-stop entry is NOT cleared here.
      { calls := [BrokerCall.marketOrder cfg.symbol positionQty OrderSide.buy]
        state := st
        errorLogged := true }
  | OrderSide.buy, none =>
      openPosition cfg st OrderSide.buy slp
  | OrderSide.buy, some PositionSide.long =>
      { calls := [], state := st, errorLogged := false }   -- "Signal BUY: Already LONG."
  | OrderSide.sell, some PositionSide.long =>
      -- "Signal SELL: Closing LONG"; the del at lines 331-333 runs before line 350 raises.
      { calls := [BrokerCall.marketOrder cfg.symbol positionQty OrderSide.sell]
        state := { st with trailingStop := none }
        errorLogged := true }
  | OrderSide.sell, none =>
      openPosition cfg st OrderSide.sell slp
  | OrderSide.sell, some PositionSide.short =>
      { calls := [], state := st, errorLogged := false }   -- "Signal SELL: Already SHORT."

/-- `_execute_signal` (src/live/trader.py lines 278-360): inputs are the
strategy signal (`none` models Python `None`), the optional
`stop_loss_params`, the wall-clock time, and the broker's position answer.
The result lists the market orders submitted and the updated trader state.
Note that although the rate-limit guard at lines 285-287 is embedded
faithfully, `last_order_time` is assigned only by the dead line 351, so in
every reachable state it is still its initial `None` and the guard never
fires. -/
def executeSignal (cfg : TraderConfig) (st : TraderState) (signal : Option ℤ)
    (slp : Option SLParams) (currentTime : ℚ) (brokerPos : BrokerPosResult) :
    ExecResult :=
  if signal = none ∨ signal = some 0 then { calls := [], state := st, errorLogged := false }
  else if rateLimited st.lastOrderTime currentTime then
    { calls := [], state := st, errorLogged := false }
  else
    let targetSide := if signal = some 1 then OrderSide.buy else OrderSide.sell
    match brokerPos with
    | BrokerPosResult.queryError => { calls := [], state := st, errorLogged := false }
    | BrokerPosResult.notFound =>
        executeSignalBody cfg { st with currentPositionSide := none } targetSide
          none 0 slp
    | BrokerPosResult.pos s q =>
        executeSignalBody cfg { st with currentPositionSide := some s } targetSide
          (some s) |q| slp

/-- The per-tick strategy step, as observed by the tick handlers: for a
'live'-type strategy the value returned by `strategy.update(price, ts)`;
for a 'backtest'-type strategy the new order intent appended to the mock
broker by `strategy.next()` (`none` when no new order appeared).  An
`Except.error` models the step raising an exception. -/
structure MockIntent where
  isBuy : Bool
  slParams : Option SLParams
deriving DecidableEq, Repr

/-- The two adapted strategy shapes (`self.strategy_type`). -/
inductive StrategyStep where
  | live (r : Except String ℤ)
  | backtest (r : Except String (Option MockIntent))
deriving Repr

/-- Environment consumed by `_execute_signal` during one tick: the wall
clock and the broker's position answer. -/
structure TickEnv where
  currentTime : ℚ
  brokerPos : BrokerPosResult
deriving DecidableEq, Repr

/-- Observable outcome of one `_handle_crypto_trade` call: the broker calls
issued, the new trader state, whether the strategy's step ran, whether
`_execute_signal` was invoked, and whether the outer `except` logged an
exception.  The handler is a total function: every exception inside it is
caught by the outer `try/except`. -/
structure HandlerOutput where
  calls : List BrokerCall
  state : TraderState
  strategyStepped : Bool
  execSignalInvoked : Bool
  errorLogged : Bool
deriving DecidableEq, Repr

/-- `_handle_crypto_trade` (src/live/trader.py lines 221-262; the stock
handler at lines 155-219 has the same structure): update the trailing stop,
check the trigger, otherwise run the strategy step and execute a non-zero
signal.  On a trigger, line 231 evaluates `self.alpaca.close_position` —
but `AlpacaData` (src/data/alpaca.py) defines no `close_position`, so the
attribute lookup raises `AttributeError` before any broker call: the `del`
at lines 233-234 is never reached (the in-place trailing-stop update from
line 226 persists), the outer `except` at line 262 logs the error, and the
rest of the tick is skipped by the exception.  `errorLogged` records that
outer `except` (when `_execute_signal` runs, it swallows its own internal
exception and the outer `except` does not fire).  The `_update_mock_data`
buffer append for backtest strategies has no observable effect here and is
not modelled. -/
def handleCryptoTrade (cfg : TraderConfig) (st : TraderState) (price : ℚ)
    (step : StrategyStep) (liveSlp : Option SLParams) (env : TickEnv) :
    HandlerOutput :=
  let st1 : TraderState := { st with trailingStop := updateTrailingStop st.trailingStop price }
  if checkTrailingStopTrigger st1.trailingStop price then
    { calls := []
      state := st1
      strategyStepped := false
      execSignalInvoked := false
      errorLogged := true }
  else
    match step with
    | StrategyStep.live (Except.error _) =>
        { calls := [], state := st1, strategyStepped := true,
          execSignalInvoked := false, errorLogged := true }
    | StrategyStep.backtest (Except.error _) =>
        { calls := [], state := st1, strategyStepped := true,
          execSignalInvoked := false, errorLogged := true }
    | StrategyStep.live (Except.ok signal) =>
        if signal ≠ 0 then
          let r := executeSignal cfg st1 (some signal) liveSlp env.currentTime
                     env.brokerPos
          { calls := r.calls, state := r.state, strategyStepped := true,
            execSignalInvoked := true, errorLogged := false }
        else
          { calls := [], state := st1, strategyStepped := true,
            execSignalInvoked := false, errorLogged := false }
    | StrategyStep.backtest (Except.ok none) =>
        { calls := [], state := st1, strategyStepped := true,
          execSignalInvoked := false, errorLogged := false }
    | StrategyStep.backtest (Except.ok (some intent)) =>
        let signal : ℤ := if intent.isBuy then 1 else -1
        let r := executeSignal cfg st1 (some signal) intent.slParams env.currentTime
                   env.brokerPos
        { calls := r.calls, state := r.state, strategyStepped := true,
          execSignalInvoked := true, errorLogged := false }

/-- One incoming trade tick together with the environment answers for it. -/
structure Tick where
  price : ℚ
  step : StrategyStep
  liveSlp : Option SLParams
  env : TickEnv
deriving Repr

/-- The data-feed loop: the stream delivers ticks one by one and each is
processed to completion by `_handle_crypto_trade`; the loop itself never
stops because of a handler outcome (all exceptions are caught inside the
handler). -/
def runTicks (cfg : TraderConfig) (st : TraderState) :
    List Tick → TraderState × List HandlerOutput
  | [] => (st, [])
  | t :: ts =>
      let o := handleCryptoTrade cfg st t.price t.step t.liveSlp t.env
      let r := runTicks cfg o.state ts
      (r.1, o :: r.2)

/-- The offset configuration's type field (`offset_type`), validated to
`'percent'` or `'atr'` by `BacktestEngine.__init__`. -/
inductive OffsetType where
  | percent
  | atr
deriving DecidableEq, Repr

/-- `LoggingStrategyWrapper._calculate_offset_price`
(src/backtest/backtester.py lines 38-90).  `basisClose` is
`self.data.Close[-1]`; `none` models a NaN basis (or no data yet), and
`atr` models `self.atr[-1]` (`none` when unavailable or NaN).  Both the
'open' and 'close' bases read the latest close (the 'open' basis is
downgraded with a warning).  Note the Python conditional-expression
precedence: `basis * (1 - x if basis != 0 else 0)` multiplies `basis` by
`0` when `basis == 0`. -/
def calculateOffsetPrice (offsetValue : ℚ) (offsetType : OffsetType)
    (basisClose : Option ℚ) (atr : Option ℚ) (is_buy : Bool) : Option ℚ :=
  if offsetValue ≤ 0 then none
  else
    match basisClose with
    | none => none
    | some basis_price =>
        let offset_amount : Option ℚ :=
          match offsetType with
          | OffsetType.percent => some (basis_price * (offsetValue / 100))
          | OffsetType.atr =>
              match atr with
              | some a => some (a * offsetValue)
              | none => none
        match offset_amount with
        | none => none
        | some amt =>
            if is_buy then
              some (basis_price * (if basis_price ≠ 0 then 1 - amt / basis_price else 0))
            else
              some (basis_price * (if basis_price ≠ 0 then 1 + amt / basis_price else 0))

/-- The parameter set actually forwarded to the underlying
`backtesting.py` `Strategy.buy`/`Strategy.sell` call. -/
structure ForwardedOrder where
  size : ℚ
  limit : Option ℚ
  stop : Option ℚ
  sl : Option ℚ
  tp : Option ℚ
deriving DecidableEq, Repr

/-- `LoggingStrategyWrapper.buy` (src/backtest/backtester.py lines 94-113):
the offset is computed only when both `limit` and `stop` are `None`, and
the computed limit is forwarded only in that same case; otherwise the
caller's parameters pass through unchanged. -/
def wrapperBuy (offsetValue : ℚ) (offsetType : OffsetType)
    (basisClose : Option ℚ) (atr : Option ℚ) (size : ℚ)
    (limit stop sl tp : Option ℚ) : ForwardedOrder :=
  let calculated_limit : Option ℚ :=
    if limit = none ∧ stop = none then
      match calculateOffsetPrice offsetValue offsetType basisClose atr true with
      | some p => some p
      | none => limit
    else limit
  if calculated_limit ≠ none ∧ limit = none ∧ stop = none then
    { size := size, limit := calculated_limit, stop := stop, sl := sl, tp := tp }
  else
    { size := size, limit := limit, stop := stop, sl := sl, tp := tp }

/-- `LoggingStrategyWrapper.sell` (src/backtest/backtester.py lines
116-135), symmetric to `wrapperBuy` with `is_buy=False`. -/
def wrapperSell (offsetValue : ℚ) (offsetType : OffsetType)
    (basisClose : Option ℚ) (atr : Option ℚ) (size : ℚ)
    (limit stop sl tp : Option ℚ) : ForwardedOrder :=
  let calculated_limit : Option ℚ :=
    if limit = none ∧ stop = none then
      match calculateOffsetPrice offsetValue offsetType basisClose atr false with
      | some p => some p
      | none => limit
    else limit
  if calculated_limit ≠ none ∧ limit = none ∧ stop = none then
    { size := size, limit := calculated_limit, stop := stop, sl := sl, tp := tp }
  else
    { size := size, limit := limit, stop := stop, sl := sl, tp := tp }

/-- Concrete example configuration used by witnesses and counterexamples. -/
def exCfg : TraderConfig := { symbol := "BTC/USD", tradeQuantity := 2 }

/-- A freshly set-up (inactive) long trailing-stop state: entry 100,
activation 1 %, trail 1.5 % (the defaults of `_setup_trailing_stop`). -/
def exTs : TrailingStopState :=
  { side := OrderSide.buy, entry_price := 100, activation_pct := 1/100,
    trail_pct := 15/1000, atr_multiplier := 3/2, current_atr := none,
    is_active := false, highest_price := .fin 100, lowest_price := .inf,
    stop_price := none }

/-- An active long trailing-stop state with extreme 110 and trail 1.5 %,
whose stop price is `110 * 0.985 = 108.35 = 2167/20`. -/
def exTsActive : TrailingStopState :=
  { exTs with is_active := true, highest_price := .fin 110,
              stop_price := some (.fin (2167/20)) }

/-- A trader state with no open position and no trailing stop. -/
def exStFlat : TraderState :=
  { lastOrderTime := none, currentPositionSide := none, trailingStop := none }

/-- A trader state carrying the inactive trailing-stop entry `exTs`. -/
def exStWithStop : TraderState :=
  { lastOrderTime := none, currentPositionSide := none, trailingStop := some exTs }

/-- A trader state holding a long position with the active stop
`exTsActive` (`lastOrderTime = none`, as in every reachable state, since
trader.py line 351 is dead). -/
def exStActive : TraderState :=
  { lastOrderTime := none, currentPositionSide := some PositionSide.long,
    trailingStop := some exTsActive }

/-- A tick environment at wall-clock time 101 with the broker reporting no
open position. -/
def exEnv : TickEnv :=
  { currentTime := 101, brokerPos := BrokerPosResult.notFound }

/-- Every tick handed to the data-feed loop produces exactly one handler
outcome: the loop never drops or aborts on a tick. -/
theorem runTicks_length (cfg : TraderConfig) :
    ∀ (ts : List Tick) (st : TraderState), (runTicks cfg st ts).2.length = ts.length := by
  intro ts
  induction ts with
  | nil => intro st; rfl
  | cons t ts ih =>
      intro st
      simp [runTicks, ih]

/-- C5: in percent mode with offset value `v > 0` and basis `b > 0`, the
entry-offset overlay computes limit `b*(1 - v/100)` for a Buy intent and
`b*(1 + v/100)` for a Sell intent — always against the trade direction. -/
theorem offset_percent_direction (v b : ℚ) (atr : Option ℚ)
    (hv : 0 < v) (hb : 0 < b) :
    calculateOffsetPrice v OffsetType.percent (some b) atr true = some (b * (1 - v / 100)) ∧
    calculateOffsetPrice v OffsetType.percent (some b) atr false = some (b * (1 + v / 100)) := by
  have hv' : ¬ v ≤ 0 := not_le.mpr hv
  have hb' : b ≠ 0 := ne_of_gt hb
  have hdiv : b * (v / 100) / b = v / 100 := by
    rw [mul_comm]
    exact mul_div_cancel_right₀ _ hb'
  unfold calculateOffsetPrice
  simp only [if_neg hv', if_pos hb', hdiv]
  exact ⟨rfl, rfl⟩

/-- C5 witness: `value=1.0`, `basis=100` gives Buy limit `99.0` and Sell
limit `101.0`. -/
theorem offset_percent_direction_witness :
    calculateOffsetPrice 1 OffsetType.percent (some 100) none true = some 99 ∧
    calculateOffsetPrice 1 OffsetType.percent (some 100) none false = some 101 := by
  have h := offset_percent_direction 1 100 none (by norm_num) (by norm_num)
  refine ⟨?_, ?_⟩
  · rw [h.1]; norm_num
  · rw [h.2]; norm_num

/-- C6: a buy/sell call with an explicit limit or stop is forwarded with
exactly the caller's limit, stop, sl, tp; the computed offset limit is
installed only when both limit and stop were `None`; sl and tp (and stop)
are never altered in any case. -/
theorem explicit_params_forwarded (v : ℚ) (t : OffsetType) (basis atr : Option ℚ)
    (size : ℚ) (limit stop sl tp : Option ℚ) :
    ((limit ≠ none ∨ stop ≠ none) →
      wrapperBuy v t basis atr size limit stop sl tp =
        { size := size, limit := limit, stop := stop, sl := sl, tp := tp } ∧
      wrapperSell v t basis atr size limit stop sl tp =
        { size := size, limit := limit, stop := stop, sl := sl, tp := tp }) ∧
    (wrapperBuy v t basis atr size limit stop sl tp).stop = stop ∧
    (wrapperBuy v t basis atr size limit stop sl tp).sl = sl ∧
    (wrapperBuy v t basis atr size limit stop sl tp).tp = tp ∧
    (wrapperSell v t basis atr size limit stop sl tp).stop = stop ∧
    (wrapperSell v t basis atr size limit stop sl tp).sl = sl ∧
    (wrapperSell v t basis atr size limit stop sl tp).tp = tp ∧
    ((wrapperBuy v t basis atr size limit stop sl tp).limit ≠ limit →
      limit = none ∧ stop = none) ∧
    ((wrapperSell v t basis atr size limit stop sl tp).limit ≠ limit →
      limit = none ∧ stop = none) := by
  unfold wrapperBuy wrapperSell
  rcases limit with _ | l
  · rcases stop with _ | s
    · -- both none: offset may be installed
      rcases hb : calculateOffsetPrice v t basis atr true with _ | p <;>
        rcases hs : calculateOffsetPrice v t basis atr false with _ | q <;>
          simp [hb, hs]
    · -- stop explicit
      simp
  · -- limit explicit
    simp

/-- C6 witness: with an explicit limit the wrapper forwards the caller's
parameters unchanged. -/
theorem explicit_params_forwarded_witness :
    wrapperBuy 1 OffsetType.percent (some 100) none (99/100) (some 5) none (some 4) (some 6) =
      { size := 99/100, limit := some 5, stop := none, sl := some 4, tp := some 6 } ∧
    wrapperSell 1 OffsetType.percent (some 100) none (99/100) (some 5) none (some 4) (some 6) =
      { size := 99/100, limit := some 5, stop := none, sl := some 4, tp := some 6 } :=
  (explicit_params_forwarded 1 OffsetType.percent (some 100) none (99/100)
      (some 5) none (some 4) (some 6)).1 (Or.inl (by simp))

/-- The spec's §4.3 decision table, written from the spec's words (to be
compared with the behaviour of `executeSignal`): Buy/Flat opens Long with
`trade_quantity`, Buy/Long is a no-op, Buy/Short closes the short with a
Buy of the absolute position size; Sell/Flat opens Short, Sell/Long closes
the long with a Sell of the position size, Sell/Short is a no-op; Hold is
always a no-op. -/
def specDecisionTable (signal : ℤ) (side : Option PositionSide)
    (tradeQty posQty : ℚ) (sym : String) : List BrokerCall :=
  if signal = 1 then
    match side with
    | none => [BrokerCall.marketOrder sym tradeQty OrderSide.buy]
    | some PositionSide.long => []
    | some PositionSide.short => [BrokerCall.marketOrder sym posQty OrderSide.buy]
  else if signal = -1 then
    match side with
    | none => [BrokerCall.marketOrder sym tradeQty OrderSide.sell]
    | some PositionSide.long => [BrokerCall.marketOrder sym posQty OrderSide.sell]
    | some PositionSide.short => []
  else []

/-- C1: for every signal in {Buy(+1), Sell(-1), Hold(0)} and every
broker-reported position side (flat = 404), `_execute_signal` submits
exactly the market orders of the §4.3 decision table (when its rate
limiter does not intervene), for any `stop_loss_params`.  The orders are
submitted before the post-placement `AttributeError` at line 350, so this
holds of the real traces. -/
theorem execute_signal_decision_table (cfg : TraderConfig) (st : TraderState)
    (slp : Option SLParams) (sig : ℤ) (side : Option PositionSide)
    (qty currentTime : ℚ)
    (hsig : sig = 1 ∨ sig = -1 ∨ sig = 0)
    (hrl : rateLimited st.lastOrderTime currentTime = false) :
    (executeSignal cfg st (some sig) slp currentTime
        (match side with
         | none => BrokerPosResult.notFound
         | some s => BrokerPosResult.pos s qty)).calls =
      specDecisionTable sig side cfg.tradeQuantity |qty| cfg.symbol := by
  rcases hsig with rfl | rfl | rfl <;>
    rcases side with _ | s <;>
      (try rcases s) <;>
        rcases slp with _ | p <;>
          (try rcases p with p | _) <;>
            simp [executeSignal, executeSignalBody, openPosition,
              specDecisionTable, hrl]

/-- C1 witness: a Buy signal against a broker-reported short of size 3
submits exactly the table's closing Buy. -/
theorem execute_signal_decision_table_witness :
    (executeSignal { symbol := "BTC/USD", tradeQuantity := 2 }
        { lastOrderTime := none, currentPositionSide := none, trailingStop := none }
        (some 1) none 0 (BrokerPosResult.pos PositionSide.short 3)).calls =
      specDecisionTable 1 (some PositionSide.short) 2 |(3 : ℚ)| "BTC/USD" :=
  execute_signal_decision_table _ _ none 1 (some PositionSide.short) 3 0
    (Or.inl rfl) rfl

/-- `_execute_signal` never changes `last_order_time` through its
decision-table body: the only assignment, line 351, is dead code (line
350's `order_details.id` on a dict raises first). -/
theorem executeSignalBody_lastOrderTime (cfg : TraderConfig) (st : TraderState)
    (targetSide : OrderSide) (apiSide : Option PositionSide) (positionQty : ℚ)
    (slp : Option SLParams) :
    (executeSignalBody cfg st targetSide apiSide positionQty slp).state.lastOrderTime =
      st.lastOrderTime := by
  rcases targetSide <;>
    rcases apiSide with _ | s <;>
      (try rcases s) <;>
        rcases slp with _ | p <;>
          (try rcases p with p | _) <;>
            simp [executeSignalBody, openPosition]

/-- C4 (code bug): the rate limiter can never engage.  `place_market_order`
returns a plain dict, so line 350's `order_details.id` raises
`AttributeError` before line 351 ever assigns `last_order_time` — trader.py
line 60's comment and the guard at lines 285-287 clearly intend the spec's
behaviour, but the assignment is dead.  `_execute_signal` leaves
`lastOrderTime` unchanged on every input, and two Buy signals fired 1
second apart from a flat start (the broker still reporting 404) really
submit two orders, not one. -/
theorem rate_limiter_never_engages (cfg : TraderConfig) (st : TraderState)
    (signal : Option ℤ) (slp : Option SLParams) (t : ℚ) (bp : BrokerPosResult) :
    (executeSignal cfg st signal slp t bp).state.lastOrderTime =
      st.lastOrderTime ∧
    (executeSignal exCfg exStFlat (some 1) none 0 BrokerPosResult.notFound).calls =
      [BrokerCall.marketOrder "BTC/USD" 2 OrderSide.buy] ∧
    (executeSignal exCfg
        (executeSignal exCfg exStFlat (some 1) none 0 BrokerPosResult.notFound).state
        (some 1) none 1 BrokerPosResult.notFound).calls =
      [BrokerCall.marketOrder "BTC/USD" 2 OrderSide.buy] := by
  refine ⟨?_, rfl, rfl⟩
  unfold executeSignal
  split
  · rfl
  · split
    · rfl
    · rcases bp <;> simp [executeSignalBody_lastOrderTime]

/-- C9 counterexample: a Sell signal while the broker reports no position
(404 / flat) is NOT a no-op — `_execute_signal` enters a short, submitting
a market Sell of `trade_quantity` (src/live/trader.py lines 334-345). -/
theorem sell_while_flat_submits_order :
    (executeSignal exCfg exStFlat (some (-1)) none 0 BrokerPosResult.notFound).calls =
      [BrokerCall.marketOrder "BTC/USD" 2 OrderSide.sell] := rfl

/-- C9 (amended): a Sell signal while the broker-reported side is Short
produces no broker call (the no-op branch of `_execute_signal`), and it
leaves the last-order time and the trailing-stop entry untouched. -/
theorem sell_while_short_is_noop (cfg : TraderConfig) (st : TraderState)
    (slp : Option SLParams) (t qty : ℚ) :
    (executeSignal cfg st (some (-1)) slp t
        (BrokerPosResult.pos PositionSide.short qty)).calls = [] ∧
    (executeSignal cfg st (some (-1)) slp t
        (BrokerPosResult.pos PositionSide.short qty)).state.lastOrderTime =
      st.lastOrderTime ∧
    (executeSignal cfg st (some (-1)) slp t
        (BrokerPosResult.pos PositionSide.short qty)).state.trailingStop =
      st.trailingStop := by
  unfold executeSignal
  split
  · simp_all
  · split
    · exact ⟨rfl, rfl, rfl⟩
    · exact ⟨rfl, rfl, rfl⟩

/-- C2 counterexample: a Buy signal closing a broker-reported Short (the
close order is submitted) leaves the symbol's trailing-stop entry in place:
deletion on close does not happen on the Buy-closes-Short path
(src/live/trader.py lines 307-310 have no `del`, unlike lines 330-333). -/
theorem buy_close_short_keeps_trailing_state :
    (executeSignal exCfg exStWithStop (some 1) none 0
        (BrokerPosResult.pos PositionSide.short 3)).calls =
      [BrokerCall.marketOrder "BTC/USD" 3 OrderSide.buy] ∧
    (executeSignal exCfg exStWithStop (some 1) none 0
        (BrokerPosResult.pos PositionSide.short 3)).state.trailingStop =
      some exTs := by
  constructor
  · show [BrokerCall.marketOrder "BTC/USD" |(3 : ℚ)| OrderSide.buy] = _
    norm_num
  · rfl

/-- C2 (amended): the symbol's trailing-stop entry is deleted only when a
Sell signal closes a Long position (the `del` at lines 331-333, which runs
before the post-placement raise); it is NOT deleted when a Buy signal
closes a Short (see the counterexample), and it also survives a
trailing-stop trigger: line 231's `self.alpaca.close_position` raises
`AttributeError` (no such method on `AlpacaData`) before the `del` at lines
233-234, leaving the (in-place updated) entry in the dict.  At most one
entry per symbol holds by construction of the per-symbol dict. -/
theorem trailing_state_deleted_only_on_sell_close
    (cfg : TraderConfig) (st st2 : TraderState) (slp : Option SLParams)
    (t qty price : ℚ) (step : StrategyStep) (liveSlp : Option SLParams)
    (env : TickEnv)
    (hrl : rateLimited st.lastOrderTime t = false)
    (htrig : checkTrailingStopTrigger (updateTrailingStop st2.trailingStop price)
        price = true) :
    (executeSignal cfg st (some (-1)) slp t
        (BrokerPosResult.pos PositionSide.long qty)).state.trailingStop = none ∧
    (handleCryptoTrade cfg st2 price step liveSlp env).state.trailingStop =
      updateTrailingStop st2.trailingStop price := by
  constructor
  · simp [executeSignal, executeSignalBody, hrl]
  · simp [handleCryptoTrade, htrig]

/-- C2 witness: a Sell closing a long at a concrete state deletes the
trailing-stop entry, while the stop of `exStActive` firing at price 108
leaves its (updated) entry in place. -/
theorem trailing_state_deleted_witness :
    (executeSignal exCfg exStWithStop (some (-1)) none 0
        (BrokerPosResult.pos PositionSide.long 3)).state.trailingStop = none ∧
    (handleCryptoTrade exCfg exStActive 108 (StrategyStep.live (Except.ok 0)) none
        exEnv).state.trailingStop = updateTrailingStop exStActive.trailingStop 108 :=
  trailing_state_deleted_only_on_sell_close exCfg exStWithStop exStActive
    none 0 3 108 (StrategyStep.live (Except.ok 0)) none exEnv
    rfl
    (by norm_num [checkTrailingStopTrigger, updateTrailingStop, exStActive,
          exTsActive, exTs, ExtQ.pmax, ExtQ.ble, ExtQ.mulQ]
        simp)

/-- C3 (code bug): the trigger condition itself behaves as specified — with
extreme 110 and trail 1.5 % the stop is 108.35, so a tick at 108.0 fires
and one at 108.4 does not — but on the firing tick the intended full-size
close is never submitted and the trailing-stop entry is not deleted:
`AlpacaData` defines no `close_position`, so trader.py line 231 raises
`AttributeError`; the outer `except` at line 262 logs it, and only the
short-circuit happens (the strategy step and `_execute_signal` are indeed
skipped, but by the swallowed exception). -/
theorem trigger_close_raises_attribute_error :
    checkTrailingStopTrigger (updateTrailingStop exStActive.trailingStop 108)
      108 = true ∧
    checkTrailingStopTrigger (updateTrailingStop exStActive.trailingStop 108.4)
      108.4 = false ∧
    (handleCryptoTrade exCfg exStActive 108 (StrategyStep.live (Except.ok 1))
        none exEnv).calls = [] ∧
    (handleCryptoTrade exCfg exStActive 108 (StrategyStep.live (Except.ok 1))
        none exEnv).state.trailingStop =
      updateTrailingStop exStActive.trailingStop 108 ∧
    (handleCryptoTrade exCfg exStActive 108 (StrategyStep.live (Except.ok 1))
        none exEnv).errorLogged = true ∧
    (handleCryptoTrade exCfg exStActive 108 (StrategyStep.live (Except.ok 1))
        none exEnv).strategyStepped = false ∧
    (handleCryptoTrade exCfg exStActive 108 (StrategyStep.live (Except.ok 1))
        none exEnv).execSignalInvoked = false := by
  have htrig : checkTrailingStopTrigger
      (updateTrailingStop exStActive.trailingStop 108) 108 = true := by
    norm_num [checkTrailingStopTrigger, updateTrailingStop, exStActive,
      exTsActive, exTs, ExtQ.pmax, ExtQ.ble, ExtQ.mulQ]
    simp
  refine ⟨htrig, ?_, ?_, ?_, ?_, ?_, ?_⟩
  · norm_num [checkTrailingStopTrigger, updateTrailingStop, exStActive,
      exTsActive, exTs, ExtQ.pmax, ExtQ.ble, ExtQ.mulQ]
    simp
  · simp [handleCryptoTrade, htrig]
  · simp [handleCryptoTrade, htrig]
  · simp [handleCryptoTrade, htrig]
  · simp [handleCryptoTrade, htrig]
  · simp [handleCryptoTrade, htrig]

/-- C7: an inactive Long trailing stop activates exactly when
`price >= entry*(1+activation_pct)` (a Short when
`price <= entry*(1-activation_pct)`), setting the extreme to the activating
tick price (and the stop from it); below the threshold the state is
returned unchanged (still inactive). -/
theorem trailing_activation_threshold (ts : TrailingStopState) (price : ℚ)
    (hinact : ts.is_active = false) :
    (ts.side = OrderSide.buy →
      (price ≥ ts.entry_price * (1 + ts.activation_pct) →
        updateTrailingStop (some ts) price =
          some { ts with
                 is_active := true,
                 highest_price := ExtQ.fin price,
                 stop_price := some (ExtQ.fin (price * (1 - ts.trail_pct))) }) ∧
      (¬ price ≥ ts.entry_price * (1 + ts.activation_pct) →
        updateTrailingStop (some ts) price = some ts)) ∧
    (ts.side = OrderSide.sell →
      (price ≤ ts.entry_price * (1 - ts.activation_pct) →
        updateTrailingStop (some ts) price =
          some { ts with
                 is_active := true,
                 lowest_price := ExtQ.fin price,
                 stop_price := some (ExtQ.fin (price * (1 + ts.trail_pct))) }) ∧
      (¬ price ≤ ts.entry_price * (1 - ts.activation_pct) →
        updateTrailingStop (some ts) price = some ts)) := by
  constructor
  · intro hside
    constructor
    · intro hge
      simp [updateTrailingStop, hinact, hside, hge, ExtQ.pmax, ExtQ.ble, ExtQ.mulQ]
    · intro hlt
      simp [updateTrailingStop, hinact, hside, hlt]
  · intro hside
    constructor
    · intro hle
      simp [updateTrailingStop, hinact, hside, hle, ExtQ.pmin, ExtQ.ble, ExtQ.mulQ]
    · intro hgt
      simp [updateTrailingStop, hinact, hside, hgt]

/-- C7 witness: entry 100, activation 1 %, Long: a tick at 100.5 leaves the
stop inactive and unchanged; a tick at 101 activates it with the extreme
set to 101. -/
theorem trailing_activation_threshold_witness :
    updateTrailingStop (some exTs) (201/2) = some exTs ∧
    updateTrailingStop (some exTs) 101 =
      some { exTs with
             is_active := true,
             highest_price := ExtQ.fin 101,
             stop_price := some (ExtQ.fin (101 * (1 - exTs.trail_pct))) } := by
  have h1 := trailing_activation_threshold exTs (201/2) rfl
  have h2 := trailing_activation_threshold exTs 101 rfl
  exact ⟨(h1.1 rfl).2 (by norm_num [exTs]), (h2.1 rfl).1 (by norm_num [exTs])⟩

/-- C8: on a tick where the adapted strategy's step raises (either shape),
the handler catches it: no order is placed, the outcome equals the
`Signal.Hold` outcome (up to the logged error), and the data-feed loop goes
on to process every remaining tick. -/
theorem strategy_exception_is_hold
    (cfg : TraderConfig) (st : TraderState) (price : ℚ) (e1 e2 : String)
    (liveSlp : Option SLParams) (env : TickEnv) (rest : List Tick)
    (hnt : checkTrailingStopTrigger (updateTrailingStop st.trailingStop price)
        price = false) :
    (handleCryptoTrade cfg st price (StrategyStep.live (Except.error e1))
        liveSlp env).calls = [] ∧
    (handleCryptoTrade cfg st price (StrategyStep.live (Except.error e1))
        liveSlp env).errorLogged = true ∧
    handleCryptoTrade cfg st price (StrategyStep.live (Except.error e1)) liveSlp env =
      { handleCryptoTrade cfg st price (StrategyStep.live (Except.ok 0)) liveSlp env with
        errorLogged := true } ∧
    handleCryptoTrade cfg st price (StrategyStep.backtest (Except.error e2)) liveSlp env =
      { handleCryptoTrade cfg st price (StrategyStep.backtest (Except.ok none)) liveSlp env with
        errorLogged := true } ∧
    (runTicks cfg st
        ({ price := price, step := StrategyStep.live (Except.error e1),
           liveSlp := liveSlp, env := env } :: rest)).2.length = rest.length + 1 := by
  refine ⟨?_, ?_, ?_, ?_, ?_⟩ <;>
    simp [handleCryptoTrade, hnt, runTicks, runTicks_length]

/-- C8 witness: with no trailing stop, an erroring live step at price 1
yields no call, a logged error, the Hold outcome, and the loop length 1. -/
theorem strategy_exception_is_hold_witness :
    (handleCryptoTrade exCfg exStFlat 1 (StrategyStep.live (Except.error "boom"))
        none exEnv).calls = [] ∧
    (handleCryptoTrade exCfg exStFlat 1 (StrategyStep.live (Except.error "boom"))
        none exEnv).errorLogged = true ∧
    handleCryptoTrade exCfg exStFlat 1 (StrategyStep.live (Except.error "boom")) none exEnv =
      { handleCryptoTrade exCfg exStFlat 1 (StrategyStep.live (Except.ok 0)) none exEnv with
        errorLogged := true } ∧
    handleCryptoTrade exCfg exStFlat 1 (StrategyStep.backtest (Except.error "bust")) none exEnv =
      { handleCryptoTrade exCfg exStFlat 1 (StrategyStep.backtest (Except.ok none)) none exEnv with
        errorLogged := true } ∧
    (runTicks exCfg exStFlat
        ({ price := 1, step := StrategyStep.live (Except.error "boom"),
           liveSlp := none, env := exEnv } :: [])).2.length =
      ([] : List Tick).length + 1 :=
  strategy_exception_is_hold exCfg exStFlat 1 "boom" "bust" none exEnv [] rfl

/-- C10 (code bug): the trigger path does bypass `_execute_signal`, but the
claimed direct `close_position` call can never be performed: `AlpacaData`
defines no `close_position`, so the attribute lookup at trader.py line 231
raises before any broker call — no close happens at all (rate limiter or
not), the error is logged, and `last_order_time` is unchanged (it is never
written anywhere, line 351 being dead). -/
theorem stop_trigger_no_broker_call :
    (handleCryptoTrade exCfg exStActive 108 (StrategyStep.live (Except.ok (-1)))
        none exEnv).execSignalInvoked = false ∧
    (handleCryptoTrade exCfg exStActive 108 (StrategyStep.live (Except.ok (-1)))
        none exEnv).calls = [] ∧
    (handleCryptoTrade exCfg exStActive 108 (StrategyStep.live (Except.ok (-1)))
        none exEnv).errorLogged = true ∧
    (handleCryptoTrade exCfg exStActive 108 (StrategyStep.live (Except.ok (-1)))
        none exEnv).state.lastOrderTime = exStActive.lastOrderTime := by
  have htrig : checkTrailingStopTrigger
      (updateTrailingStop exStActive.trailingStop 108) 108 = true := by
    norm_num [checkTrailingStopTrigger, updateTrailingStop, exStActive,
      exTsActive, exTs, ExtQ.pmax, ExtQ.ble, ExtQ.mulQ]
    simp
  refine ⟨?_, ?_, ?_, ?_⟩ <;> simp [handleCryptoTrade, htrig]
